import Mathlib

/-!
Verification of the movie-recommender ETL pipeline.

This file gives a shallow embedding of the two data-loading scripts of the
repository, `scripts/load_movie_data.py` (the "scripts" variant) and
`load_movie_data.py` at the repository root (the "basic" variant), and proves
or refutes the claims of the specification against that embedding.

Modelling conventions:
- Python strings are Lean `String`; character-level work happens on `List Char`.
- A CSV file is a list of already-lexed records (each a list of cell strings);
  the CSV lexer itself is an external collaborator and is not modelled.
- `csv.DictReader` is modelled by `dictRows`: the first record of the stream it
  is handed becomes the field names, every later record is zipped against them.
- The SQLite database is a record of tables, each a list of rows, in insertion
  order.  `INSERT OR IGNORE` is an insert guarded by a primary-key membership
  test.  The schema file `movie_schema.sql` is not under `src/`, so primary-key
  and surrogate-id behaviour of the storage engine is modelled from the spec
  where noted.
- Python exceptions that escape a statement are modelled with `Except String`;
  the error payload is the Python exception class name.
-/

deriving instance DecidableEq for Except

/-- Python `str.strip` whitespace test, restricted to the ASCII whitespace
characters that occur in these data files. -/
def isSpaceChar (c : Char) : Bool :=
  c = ' ' || c = '\t' || c = '\n' || c = '\r'

/-- Python `str.strip()`: drop leading and trailing whitespace. -/
def pyStrip (s : String) : String :=
  String.mk (((s.toList.dropWhile isSpaceChar).reverse.dropWhile isSpaceChar).reverse)

/-- Decimal value of a digit list (most significant first). -/
def natOfDigits (ds : List Char) : Nat :=
  ds.foldl (fun a c => 10 * a + (c.toNat - 48)) 0

/-- Python `str.isdigit()` on ASCII data: nonempty and all decimal digits. -/
def pyIsDigit (s : String) : Bool :=
  !s.toList.isEmpty && s.toList.all Char.isDigit

/-- Python `int(s)` restricted to the decimal grammar used by these datasets:
optional surrounding whitespace, optional sign, then digits.  Returns `none`
where Python raises `ValueError`. -/
def pyInt? (s : String) : Option Int :=
  let t := (pyStrip s).toList
  match t with
  | '-' :: ds =>
      if ds.isEmpty then none
      else if ds.all Char.isDigit then some (-(natOfDigits ds : Int)) else none
  | '+' :: ds =>
      if ds.isEmpty then none
      else if ds.all Char.isDigit then some (natOfDigits ds : Int) else none
  | ds =>
      if ds.isEmpty then none
      else if ds.all Char.isDigit then some (natOfDigits ds : Int) else none

/-- Python `s.split(sep)` on character lists: split at every occurrence of
`sep`, keeping empty pieces; the empty string yields one empty piece. -/
def pySplit (sep : Char) : List Char → List (List Char)
  | [] => [[]]
  | c :: rest =>
    match pySplit sep rest with
    | [] => [[]]
    | t :: ts => if c = sep then [] :: t :: ts else (c :: t) :: ts

/-- Python `s.split(sep, 1)`: split at the first occurrence of `sep` only. -/
def pySplit1 (sep : Char) : List Char → List (List Char)
  | [] => [[]]
  | c :: rest =>
    if c = sep then [[], rest]
    else
      match pySplit1 sep rest with
      | [] => [[c]]
      | t :: ts => (c :: t) :: ts

/-- `pySplit` lifted to `String`. -/
def pySplitStr (sep : Char) (s : String) : List String :=
  (pySplit sep s.toList).map String.mk

/-- Whether `p` is an initial segment of `l`. -/
def leadsWith : List Char → List Char → Bool
  | [], _ => true
  | _ :: _, [] => false
  | p :: ps, c :: cs => p = c && leadsWith ps cs

/-- Python `pat in s` for strings: substring containment. -/
def hasSub (pat : List Char) : List Char → Bool
  | [] => leadsWith pat []
  | c :: rest => leadsWith pat (c :: rest) || hasSub pat rest

/-- Fuel-indexed worker for `removeSubstr`; the fuel is an upper bound on the
number of characters still to be scanned, so structural recursion suffices. -/
def removeSubstrAux (pat : List Char) : Nat → List Char → List Char
  | 0, l => l
  | _, [] => []
  | fuel + 1, c :: rest =>
    if leadsWith pat (c :: rest) && !pat.isEmpty then
      removeSubstrAux pat fuel (rest.drop (pat.length - 1))
    else
      c :: removeSubstrAux pat fuel rest

/-- Python `s.replace(pat, "")` for a nonempty `pat`: remove every
non-overlapping occurrence of `pat`, scanning left to right. -/
def removeSubstr (pat l : List Char) : List Char :=
  removeSubstrAux pat l.length l

/-- Python `float(s)` restricted to the decimal grammar used by these datasets:
optional surrounding whitespace, optional sign, digits with an optional decimal
point (at least one digit overall).  Exponent, infinity and nan forms do not
occur in these files and are outside the modelled grammar.  Returns `none`
where Python raises `ValueError`. -/
def pyFloat? (s : String) : Option ℚ :=
  let t := (pyStrip s).toList
  let sgn : ℚ × List Char :=
    match t with
    | '-' :: r => (-1, r)
    | '+' :: r => (1, r)
    | r => (1, r)
  match pySplit1 '.' sgn.2 with
  | [ip] =>
      if ip.isEmpty then none
      else if ip.all Char.isDigit then some (sgn.1 * (natOfDigits ip : ℚ)) else none
  | [ip, fp] =>
      if ip.isEmpty && fp.isEmpty then none
      else if ip.all Char.isDigit && fp.all Char.isDigit then
        some (sgn.1 * ((natOfDigits ip : ℚ) + (natOfDigits fp : ℚ) / (10 ^ fp.length)))
      else none
  | _ => none

/-- A calendar date as stored by the loaders. -/
abbrev Ymd := Nat × Nat × Nat

/-- `datetime.strptime(s, "%Y-%m-%d").date()` restricted to the forms in these
datasets: dash-separated year (1-4 digits), month and day (1-2 digits), with
month in 1..12 and day in 1..31 (the full per-month day validation of the
Python date constructor is not needed by any claim and is simplified to the
1..31 bound).  Returns `none` where Python raises `ValueError`. -/
def parseDate? (s : String) : Option Ymd :=
  match pySplit '-' s.toList with
  | [y, m, d] =>
      if !y.isEmpty && y.length ≤ 4 && y.all Char.isDigit
          && !m.isEmpty && m.length ≤ 2 && m.all Char.isDigit
          && !d.isEmpty && d.length ≤ 2 && d.all Char.isDigit then
        let mv := natOfDigits m
        let dv := natOfDigits d
        if 1 ≤ mv && mv ≤ 12 && 1 ≤ dv && dv ≤ 31 then
          some (natOfDigits y, mv, dv)
        else none
      else none
  | _ => none

/-- Python `s or None` on a string: `none` for the empty string. -/
def optStr (s : String) : Option String :=
  if s = "" then none else some s

/-- The inline `code, label = entry.split("-", 1)` of the loaders, applied to a
token known to contain a dash; for a dash-free token the whole token is
returned as the code with an empty label. -/
def splitDash (s : String) : String × String :=
  match pySplit1 '-' s.toList with
  | [a, b] => (String.mk a, String.mk b)
  | _ => (s, "")

/-- The inline coded-token parse of the loaders: a token is split into a code
and a label at the first dash when it has one, otherwise the whole token is the
code and the label is absent. -/
def splitCoded (token : String) : String × Option String :=
  match pySplit1 '-' token.toList with
  | [a, b] => (String.mk a, some (String.mk b))
  | _ => (token, none)

/-- Join a token list with a separator character (the inverse of a full
split). -/
def joinSep (sep : Char) : List (List Char) → List Char
  | [] => []
  | [t] => t
  | t :: ts => t ++ sep :: joinSep sep ts


/-! ## Dictionaries and the `csv.DictReader` model -/

/-- A parsed CSV record as `csv.DictReader` presents it: an association list
from field name to cell value, in field order. -/
abbrev CsvRow := List (String × String)

/-- Python dict assignment `d[k] = v`: if `k` is present its value is replaced
in place, otherwise the pair is appended (insertion order is kept). -/
def dictInsert {α : Type} (d : List (String × α)) (k : String) (v : α) :
    List (String × α) :=
  if d.any (fun p => p.1 == k) then
    d.map (fun p => if p.1 = k then (k, v) else p)
  else
    d ++ [(k, v)]

/-- Python `d.get(k)` / `d[k]` lookup on the dictionary model. -/
def dictGet {α : Type} (d : List (String × α)) (k : String) : Option α :=
  (d.find? (fun p => p.1 == k)).map (fun p => p.2)

/-- Build a dict from a pair list by repeated assignment (a later duplicate
key overwrites an earlier one, as in Python dict construction). -/
def dictOfPairs (ps : List (String × String)) : CsvRow :=
  ps.foldl (fun d p => dictInsert d p.1 p.2) []

/-- `csv.DictReader` on a stream of records: the first record of the stream
becomes the field names and every later record is keyed against them.  A
record longer or shorter than the field-name list is truncated by the zip (the
`restkey`/`restval` behaviour is not exercised by these files). -/
def dictRows (file : List (List String)) : List CsvRow :=
  match file with
  | [] => []
  | header :: rs => rs.map (fun r => dictOfPairs (header.zip r))

/-- Python `row.get(k, "")` as used throughout the scripts variant. -/
def rowGet (row : CsvRow) (k : String) : String :=
  (dictGet row k).getD ""

/-- Python `row[k]` as used throughout the basic variant: a missing key raises
`KeyError`. -/
def basicGet (row : CsvRow) (k : String) : Except String String :=
  match dictGet row k with
  | some v => .ok v
  | none => .error "KeyError"

/-- Python `set.add` observed through one fixed enumeration: the model keeps
first-insertion order.  Python itself does not promise any enumeration order
for a `set`; the order-dependence of downstream surrogate ids is treated
explicitly where a claim depends on it. -/
def addName (s : List String) (x : String) : List String :=
  if x ∈ s then s else s ++ [x]

/-! ## Table model -/

/-- A row of the `movie` table: the union of the column sets written by the
original-dataset insert and the Kaggle insert; a column a given insert does not
mention is NULL (`none`). -/
structure MovieRow where
  movie_id : Int
  original_language_code : Option String := none
  original_title : Option String := none
  english_title : Option String := none
  budget : Option ℚ := none
  revenue : Option ℚ := none
  homepage : Option String := none
  runtime : Option Int := none
  release_date : Option Ymd := none
  imdb_rating : Option ℚ := none
  meta_score : Option Int := none
  overview : Option String := none
  certificate : Option String := none
  no_of_votes : Option Int := none
  gross_revenue : Option ℚ := none
deriving DecidableEq

/-- Modelled from the spec: the schema file `movie_schema.sql` is not under
`src/`, so the engine-assigned surrogate key of a reference table
(`genre_id`, `company_id`, `director_id`, `person_id`) is modelled as the
SQLite `INTEGER PRIMARY KEY` behaviour the spec relies on: one more than the
current maximum id, starting at 1. -/
def nextRefId (t : List (Nat × String)) : Nat :=
  (t.foldl (fun a g => max a g.1) 0) + 1

/-- Modelled from the spec: `INSERT OR IGNORE` into a reference table whose
natural key column is unique (the resolver performs single-row lookups by that
column, which the spec guarantees); a row whose natural key is already present
is a no-op, otherwise the row is appended with an engine-assigned id. -/
def insertRefByName (t : List (Nat × String)) (name : String) : List (Nat × String) :=
  if t.any (fun g => g.2 == name) then t else t ++ [(nextRefId t, name)]

/-- `SELECT <id> FROM <table> WHERE <natural key> = ?` followed by `fetchone`. -/
def lookupRefId (t : List (Nat × String)) (name : String) : Option Nat :=
  (t.find? (fun g => g.2 == name)).map (fun g => g.1)

/-- Modelled from the spec: `INSERT OR IGNORE` into `language`/`country`,
whose primary key is the code column. -/
def insertCodeIfAbsent (t : List (String × String)) (code name : String) :
    List (String × String) :=
  if t.any (fun p => p.1 == code) then t else t ++ [(code, name)]

/-- Code to stored label lookup on `language`/`country`. -/
def lookupCode (t : List (String × String)) (code : String) : Option String :=
  dictGet t code

/-- Modelled from the spec: `INSERT OR IGNORE` into an association table whose
primary key is the full pair of foreign keys. -/
def insertPair {α : Type} [DecidableEq α] (t : List α) (p : α) : List α :=
  if p ∈ t then t else t ++ [p]

/-- `INSERT OR IGNORE` into `movie`, keyed on the primary key `movie_id`. -/
def insertMovieIfAbsent (movies : List MovieRow) (r : MovieRow) : List MovieRow :=
  if movies.any (fun m => m.movie_id == r.movie_id) then movies else movies ++ [r]

/-- `SELECT MAX(movie_id) FROM movie`: NULL on an empty table. -/
def maxMovieId? : List MovieRow → Option Int
  | [] => none
  | m :: rest =>
    match maxMovieId? rest with
    | none => some m.movie_id
    | some x => some (max m.movie_id x)

/-- The Kaggle surrogate-id allocator,
`movie_id = cur.execute("SELECT MAX(movie_id) FROM movie").fetchone()[0]`
then `movie_id = movie_id + 1 if movie_id else 1` (Python truthiness: both
`None` and `0` take the `else` branch). -/
def nextKaggleId (movies : List MovieRow) : Int :=
  match maxMovieId? movies with
  | none => 1
  | some m => if m ≠ 0 then m + 1 else 1

/-- `SELECT movie_id FROM movie WHERE original_title = ?` succeeds: whether any
stored movie has exactly this original title (a NULL title matches nothing). -/
def hasTitle (movies : List MovieRow) (t : String) : Bool :=
  movies.any (fun m => m.original_title == some t)


/-! ## Database state -/

/-- The tables touched by the scripts variant (`scripts/load_movie_data.py`).
Association tables carry exactly their two foreign-key columns. -/
structure DB where
  language : List (String × String) := []
  country : List (String × String) := []
  genre : List (Nat × String) := []
  production_company : List (Nat × String) := []
  director : List (Nat × String) := []
  person : List (Nat × String) := []
  movie : List MovieRow := []
  movie_genre : List (Int × Nat) := []
  movie_production_company : List (Int × Nat) := []
  movie_director : List (Int × Nat) := []
  movie_cast : List (Int × Nat) := []
  production_country : List (Int × String) := []
  movie_spoken_language : List (Int × String) := []
deriving DecidableEq

/-! ## Registry flush functions (shared by both variants) -/

/-- `load_languages`: flush the language dict; a falsy (empty) code is skipped
and a falsy (absent or empty) label becomes "Unknown". -/
def load_languages (t : List (String × String)) (d : List (String × Option String)) :
    List (String × String) :=
  d.foldl
    (fun acc p =>
      if p.1 ≠ "" then
        insertCodeIfAbsent acc p.1
          (match p.2 with
           | none => "Unknown"
           | some s => if s = "" then "Unknown" else s)
      else acc)
    t

/-- `load_countries`: same shape as `load_languages`. -/
def load_countries (t : List (String × String)) (d : List (String × Option String)) :
    List (String × String) :=
  d.foldl
    (fun acc p =>
      if p.1 ≠ "" then
        insertCodeIfAbsent acc p.1
          (match p.2 with
           | none => "Unknown"
           | some s => if s = "" then "Unknown" else s)
      else acc)
    t

/-- `load_genres`: insert every truthy (nonempty) genre name, ignoring names
already present. -/
def load_genres (t : List (Nat × String)) (genres : List String) : List (Nat × String) :=
  genres.foldl (fun acc g => if g ≠ "" then insertRefByName acc g else acc) t

/-- `load_production_companies`. -/
def load_production_companies (t : List (Nat × String)) (companies : List String) :
    List (Nat × String) :=
  companies.foldl (fun acc c => if c ≠ "" then insertRefByName acc c else acc) t

/-- `load_directors`. -/
def load_directors (t : List (Nat × String)) (directors : List String) :
    List (Nat × String) :=
  directors.foldl (fun acc d => if d ≠ "" then insertRefByName acc d else acc) t

/-- `load_persons` (scripts variant: name-only person rows). -/
def load_persons (t : List (Nat × String)) (names : List String) : List (Nat × String) :=
  names.foldl (fun acc n => if n ≠ "" then insertRefByName acc n else acc) t

/-! ## Scripts variant: `load_movies` -/

/-- The in-memory registries built by pass 1 of `load_movies`.  The Python
originals are two dicts and two sets; dict values of `None` are kept distinct
from empty strings. -/
structure OrigSets where
  genres : List String := []
  languages : List (String × Option String) := []
  countries : List (String × Option String) := []
  companies : List String := []
deriving DecidableEq

/-- One row of pass 1 of the scripts `load_movies`: collect the original
language, spoken languages, production countries, genres and companies. -/
def scriptsMoviesPass1Row (s : OrigSets) (row : CsvRow) : OrigSets :=
  let ol := pyStrip (rowGet row "OriginalLanguage")
  let s :=
    if ol ≠ "" then
      if hasSub ['-'] ol.toList then
        { s with languages := dictInsert s.languages (splitDash ol).1 (some (splitDash ol).2) }
      else
        { s with languages := dictInsert s.languages ol none }
    else s
  let sl := pyStrip (rowGet row "SpokenLanguages")
  let s :=
    if sl ≠ "" then
      (pySplitStr '|' sl).foldl
        (fun acc entry =>
          if hasSub ['-'] entry.toList then
            { acc with
              languages := dictInsert acc.languages (splitDash entry).1 (some (splitDash entry).2) }
          else acc)
        s
    else s
  let pc := pyStrip (rowGet row "ProductionCountries")
  let s :=
    if pc ≠ "" then
      (pySplitStr '|' pc).foldl
        (fun acc entry =>
          if hasSub ['-'] entry.toList then
            { acc with
              countries := dictInsert acc.countries (splitDash entry).1 (some (splitDash entry).2) }
          else acc)
        s
    else s
  let g := pyStrip (rowGet row "Genres")
  let s := if g ≠ "" then { s with genres := (pySplitStr '|' g).foldl addName s.genres } else s
  let pcs := pyStrip (rowGet row "ProductionCompanies")
  let s :=
    if pcs ≠ "" then { s with companies := (pySplitStr '|' pcs).foldl addName s.companies }
    else s
  s

/-- Pass 1 of the scripts `load_movies` over the whole row stream. -/
def scriptsMoviesPass1 (rows : List CsvRow) : OrigSets :=
  rows.foldl scriptsMoviesPass1Row {}

/-- The flush step between the two passes of the scripts `load_movies`. -/
def scriptsMoviesFlush (db : DB) (s : OrigSets) : DB :=
  { db with
    language := load_languages db.language s.languages
    country := load_countries db.country s.countries
    genre := load_genres db.genre s.genres
    production_company := load_production_companies db.production_company s.companies }

/-- Genre associations of one scripts-variant movie row: each pipe token is
resolved against the genre table and dropped silently when unresolved. -/
def scriptsGenres (db : DB) (movie_id : Int) (row : CsvRow) : DB :=
  let genres := pyStrip (rowGet row "Genres")
  if genres ≠ "" then
    (pySplitStr '|' genres).foldl
      (fun acc g =>
        match lookupRefId acc.genre g with
        | some gid => { acc with movie_genre := insertPair acc.movie_genre (movie_id, gid) }
        | none => acc)
      db
  else db

/-- Production-company associations of one scripts-variant movie row. -/
def scriptsCompanies (db : DB) (movie_id : Int) (row : CsvRow) : DB :=
  let companies := pyStrip (rowGet row "ProductionCompanies")
  if companies ≠ "" then
    (pySplitStr '|' companies).foldl
      (fun acc c =>
        match lookupRefId acc.production_company c with
        | some cid =>
            { acc with
              movie_production_company := insertPair acc.movie_production_company (movie_id, cid) }
        | none => acc)
      db
  else db

/-- Production-country associations of one scripts-variant movie row: the code
parsed from each dashed token is written directly, with no resolver lookup. -/
def scriptsCountries (db : DB) (movie_id : Int) (row : CsvRow) : DB :=
  let countries := pyStrip (rowGet row "ProductionCountries")
  if countries ≠ "" then
    (pySplitStr '|' countries).foldl
      (fun acc entry =>
        if hasSub ['-'] entry.toList then
          { acc with
            production_country :=
              insertPair acc.production_country (movie_id, (splitDash entry).1) }
        else acc)
      db
  else db

/-- Spoken-language associations of one scripts-variant movie row: like the
country associations, codes are written directly without resolution. -/
def scriptsSpoken (db : DB) (movie_id : Int) (row : CsvRow) : DB :=
  let sl := pyStrip (rowGet row "SpokenLanguages")
  if sl ≠ "" then
    (pySplitStr '|' sl).foldl
      (fun acc entry =>
        if hasSub ['-'] entry.toList then
          { acc with
            movie_spoken_language :=
              insertPair acc.movie_spoken_language (movie_id, (splitDash entry).1) }
        else acc)
      db
  else db

/-- Pass 2 of the scripts `load_movies`, one row: a non-numeric `MovieID` skips
the row; an unparsable `Budget` or `Revenue` raises `ValueError` (the source
wraps neither in a `try`); `Runtime` is guarded by `isdigit` and `ReleaseDate`
by a `try`, so both degrade to NULL. -/
def scriptsMoviesStep (db : DB) (row : CsvRow) : Except String DB :=
  let movieIdStr := pyStrip (rowGet row "MovieID")
  if !pyIsDigit movieIdStr then .ok db
  else
    let movie_id : Int := (natOfDigits movieIdStr.toList : Int)
    let ol := pyStrip (rowGet row "OriginalLanguage")
    let lang_code : Option String :=
      if ol ≠ "" then
        if hasSub ['-'] ol.toList then some (splitDash ol).1 else some ol
      else none
    let budgetStr := pyStrip (rowGet row "Budget")
    match (if budgetStr = "" then .ok none
           else match pyFloat? budgetStr with
                | some q => .ok (some q)
                | none => .error "ValueError" : Except String (Option ℚ)) with
    | .error e => .error e
    | .ok budget =>
      let revenueStr := pyStrip (rowGet row "Revenue")
      match (if revenueStr = "" then .ok none
             else match pyFloat? revenueStr with
                  | some q => .ok (some q)
                  | none => .error "ValueError" : Except String (Option ℚ)) with
      | .error e => .error e
      | .ok revenue =>
        let runtimeStr := pyStrip (rowGet row "Runtime")
        let runtime : Option Int :=
          if pyIsDigit runtimeStr then some (natOfDigits runtimeStr.toList : Int) else none
        let dateStr := pyStrip (rowGet row "ReleaseDate")
        let release_date : Option Ymd := if dateStr ≠ "" then parseDate? dateStr else none
        let r : MovieRow :=
          { movie_id := movie_id
            original_language_code := lang_code
            original_title := optStr (pyStrip (rowGet row "OriginalTitle"))
            english_title := optStr (pyStrip (rowGet row "EnglishTitle"))
            budget := budget
            revenue := revenue
            homepage := optStr (pyStrip (rowGet row "Homepage"))
            runtime := runtime
            release_date := release_date }
        let db1 := { db with movie := insertMovieIfAbsent db.movie r }
        .ok (scriptsSpoken (scriptsCountries (scriptsCompanies (scriptsGenres db1 movie_id row)
          movie_id row) movie_id row) movie_id row)

/-- Run a per-row step over a row stream, propagating the first raised
exception (which aborts the remaining rows, as in Python). -/
def foldSteps {σ : Type} (f : σ → CsvRow → Except String σ) : σ → List CsvRow → Except String σ
  | s, [] => .ok s
  | s, r :: rs =>
    match f s r with
    | .error e => .error e
    | .ok s2 => foldSteps f s2 rs

/-- The scripts `load_movies`: pass 1 collects the registries from a
`DictReader` over the file, the registries are flushed, then the file is
rewound and re-read with a fresh `DictReader` (no header skip here: the
header line is re-consumed as the header) and pass 2 runs per row. -/
def load_movies (db : DB) (file : List (List String)) : Except String DB :=
  let s := scriptsMoviesPass1 (dictRows file)
  let db := scriptsMoviesFlush db s
  foldSteps scriptsMoviesStep db (dictRows file)

/-! ## Scripts variant: `load_kaggle_data` -/

/-- The in-memory registries built by pass 1 of `load_kaggle_data` (three
Python sets). -/
structure KaggleSets where
  directors : List String := []
  actors : List String := []
  genres : List String := []
deriving DecidableEq

/-- One row of pass 1 of `load_kaggle_data`: collect the director, the four
star slots and the comma-separated (per-token stripped) genres. -/
def kagglePass1Row (s : KaggleSets) (row : CsvRow) : KaggleSets :=
  let director := pyStrip (rowGet row "Director")
  let s := if director ≠ "" then { s with directors := addName s.directors director } else s
  let stars := [pyStrip (rowGet row "Star1"), pyStrip (rowGet row "Star2"),
    pyStrip (rowGet row "Star3"), pyStrip (rowGet row "Star4")]
  let s := { s with actors := (stars.filter (fun x => x ≠ "")).foldl addName s.actors }
  let genres := pyStrip (rowGet row "Genre")
  let s :=
    if genres ≠ "" then
      { s with genres := ((pySplitStr ',' genres).map pyStrip).foldl addName s.genres }
    else s
  s

/-- Pass 1 of `load_kaggle_data` over the whole row stream. -/
def kagglePass1 (rows : List CsvRow) : KaggleSets :=
  rows.foldl kagglePass1Row {}

/-- The `Runtime` field of a Kaggle row: when the text contains "min" the
source strips the substring and calls `int` on the remainder with no guard, so
a remainder that is not a plain number raises `ValueError`; without "min" the
column is NULL. -/
def kaggleRuntime? (row : CsvRow) : Except String (Option Int) :=
  let rs := pyStrip (rowGet row "Runtime")
  if hasSub "min".toList rs.toList then
    match pyInt? (pyStrip (String.mk (removeSubstr "min".toList rs.toList))) with
    | some n => .ok (some n)
    | none => .error "ValueError"
  else .ok none

/-- The movie fact row written by pass 2 of `load_kaggle_data` for a new
title: every numeric field other than the runtime is parsed defensively
(`try`/`except` or an `isdigit` guard), degrading to NULL. -/
def kaggleMovieRow (movie_id : Int) (movie_title : String) (runtime : Option Int)
    (row : CsvRow) : MovieRow :=
  let imdbStr := pyStrip (rowGet row "IMDB_Rating")
  let metaStr := pyStrip (rowGet row "Meta_score")
  let yearStr := pyStrip (rowGet row "Released_Year")
  let votesStr := pyStrip (String.mk ((rowGet row "No_of_Votes").toList.filter (fun c => c ≠ ',')))
  let grossStr :=
    pyStrip (String.mk ((rowGet row "Gross").toList.filter (fun c => c ≠ ',' && c ≠ '$')))
  { movie_id := movie_id
    original_title := some movie_title
    imdb_rating := if imdbStr = "" then none else pyFloat? imdbStr
    meta_score := if metaStr = "" then none else pyInt? metaStr
    overview := optStr (pyStrip (rowGet row "Overview"))
    certificate := optStr (pyStrip (rowGet row "Certificate"))
    runtime := runtime
    release_date := if pyIsDigit yearStr then parseDate? (yearStr ++ "-01-01") else none
    no_of_votes := if pyIsDigit votesStr then some (natOfDigits votesStr.toList : Int) else none
    gross_revenue :=
      if grossStr = "" then none
      else if grossStr = "NA" then none
      else pyFloat? grossStr }

/-- The loop body of the Kaggle genre-association loop: resolve one genre
name and write the association when resolution succeeds. -/
def kaggleGenreStep (movie_id : Int) (acc : DB) (g : String) : DB :=
  match lookupRefId acc.genre g with
  | some gid => { acc with movie_genre := insertPair acc.movie_genre (movie_id, gid) }
  | none => acc

/-- Genre associations of one Kaggle row: comma tokens, per-token stripped,
resolved against the genre table and dropped silently when unresolved. -/
def kaggleGenres (db : DB) (movie_id : Int) (row : CsvRow) : DB :=
  let genres := pyStrip (rowGet row "Genre")
  if genres ≠ "" then
    ((pySplitStr ',' genres).map pyStrip).foldl (kaggleGenreStep movie_id) db
  else db

/-- Director association of one Kaggle row, resolved and skip-on-unresolved. -/
def kaggleDirector (db : DB) (movie_id : Int) (row : CsvRow) : DB :=
  let director := pyStrip (rowGet row "Director")
  if director ≠ "" then
    match lookupRefId db.director director with
    | some did => { db with movie_director := insertPair db.movie_director (movie_id, did) }
    | none => db
  else db

/-- Cast associations of one Kaggle row: the four star slots, blank slots
dropped, resolved against the person table and dropped silently when
unresolved. -/
def kaggleStarStep (movie_id : Int) (acc : DB) (st : String) : DB :=
  match lookupRefId acc.person st with
  | some pid => { acc with movie_cast := insertPair acc.movie_cast (movie_id, pid) }
  | none => acc

/-- Cast associations of one Kaggle row (continued): fold of `kaggleStarStep`
over the non-blank star slots. -/
def kaggleStars (db : DB) (movie_id : Int) (row : CsvRow) : DB :=
  let stars := [pyStrip (rowGet row "Star1"), pyStrip (rowGet row "Star2"),
    pyStrip (rowGet row "Star3"), pyStrip (rowGet row "Star4")]
  (stars.filter (fun x => x ≠ "")).foldl (kaggleStarStep movie_id) db

/-- Pass 2 of `load_kaggle_data`, one row: a blank title skips the row; a title
already stored as some original title skips the row; otherwise a fresh
surrogate id is allocated from the current movie table, the movie fact row is
written, and genre, director and cast associations are resolved and written. -/
def kagglePass2Step (db : DB) (row : CsvRow) : Except String DB :=
  let movie_title := pyStrip (rowGet row "Series_Title")
  if movie_title = "" then .ok db
  else if hasTitle db.movie movie_title then .ok db
  else
    match kaggleRuntime? row with
    | .error e => .error e
    | .ok runtime =>
      let movie_id := nextKaggleId db.movie
      let r := kaggleMovieRow movie_id movie_title runtime row
      let db1 := { db with movie := insertMovieIfAbsent db.movie r }
      .ok (kaggleStars (kaggleDirector (kaggleGenres db1 movie_id row) movie_id row)
        movie_id row)

/-- Pass 2 of `load_kaggle_data` over a row stream. -/
def kagglePass2 (db : DB) (rows : List CsvRow) : Except String DB :=
  foldSteps kagglePass2Step db rows

/-- `load_kaggle_data`: pass 1 reads the file through a `DictReader` (the
header record supplies the field names) and flushes directors, genres and
persons.  The file is then rewound with `f.seek(0)` followed by `next(f)`,
which consumes the header line, and a fresh `DictReader` with no explicit
field names is built on the remaining stream — so that reader takes the first
DATA record as its field names.  Pass 2 therefore runs on
`dictRows (file.drop 1)`. -/
def load_kaggle_data (db : DB) (file : List (List String)) : Except String DB :=
  let s := kagglePass1 (dictRows file)
  let db :=
    { db with
      director := load_directors db.director s.directors
      genre := load_genres db.genre s.genres
      person := load_persons db.person s.actors }
  kagglePass2 db (dictRows (file.drop 1))

/-! ## Basic variant: `load_movie_data.py` at the repository root -/

/-- The tables touched by the basic variant.  Its person table keys cast
members by the source-supplied `cast_id` (a raw CSV string), and its
`movie_cast` rows carry that raw string. -/
structure BDB where
  language : List (String × String) := []
  country : List (String × String) := []
  genre : List (Nat × String) := []
  production_company : List (Nat × String) := []
  person : List (String × String × Option Int) := []
  movie : List MovieRow := []
  movie_genre : List (Int × Nat) := []
  movie_production_company : List (Int × Nat) := []
  production_country : List (Int × String) := []
  movie_spoken_language : List (Int × String) := []
  movie_cast : List (Int × String) := []
deriving DecidableEq

/-- Genre associations of one basic-variant movie row (no stripping anywhere:
the basic variant uses the raw cell values). -/
def basicGenres (db : BDB) (movie_id : Int) (genres : String) : BDB :=
  if genres ≠ "" then
    (pySplitStr '|' genres).foldl
      (fun acc g =>
        match lookupRefId acc.genre g with
        | some gid => { acc with movie_genre := insertPair acc.movie_genre (movie_id, gid) }
        | none => acc)
      db
  else db

/-- Production-company associations of one basic-variant movie row. -/
def basicCompanies (db : BDB) (movie_id : Int) (companies : String) : BDB :=
  if companies ≠ "" then
    (pySplitStr '|' companies).foldl
      (fun acc c =>
        match lookupRefId acc.production_company c with
        | some cid =>
            { acc with
              movie_production_company := insertPair acc.movie_production_company (movie_id, cid) }
        | none => acc)
      db
  else db

/-- Production-country associations of one basic-variant movie row: codes are
written directly without resolution. -/
def basicCountries (db : BDB) (movie_id : Int) (countries : String) : BDB :=
  if countries ≠ "" then
    (pySplitStr '|' countries).foldl
      (fun acc entry =>
        if hasSub ['-'] entry.toList then
          { acc with
            production_country := insertPair acc.production_country (movie_id, (splitDash entry).1) }
        else acc)
      db
  else db

/-- Spoken-language associations of one basic-variant movie row. -/
def basicSpoken (db : BDB) (movie_id : Int) (sl : String) : BDB :=
  if sl ≠ "" then
    (pySplitStr '|' sl).foldl
      (fun acc entry =>
        if hasSub ['-'] entry.toList then
          { acc with
            movie_spoken_language :=
              insertPair acc.movie_spoken_language (movie_id, (splitDash entry).1) }
        else acc)
      db
  else db

/-- Cast associations of one basic-variant movie row: every pipe token of the
`CastID` cell is written into `movie_cast` verbatim, with no lookup against the
person table. -/
def basicCast (db : BDB) (movie_id : Int) (castIds : String) : BDB :=
  if castIds ≠ "" then
    (pySplitStr '|' castIds).foldl
      (fun acc cid => { acc with movie_cast := insertPair acc.movie_cast (movie_id, cid) })
      db
  else db

/-- Pass 2 of the basic `load_movies`, one row.  The basic variant reads cells
with `row[...]` (a missing column raises `KeyError`) and converts with bare
`int`/`float`/`strptime` calls, so a non-numeric `MovieID`, `Budget`,
`Revenue` or `Runtime`, or a malformed `ReleaseDate`, raises and aborts the
whole load. -/
def basicMoviesStep (db : BDB) (row : CsvRow) : Except String BDB := do
  let movieIdStr ← basicGet row "MovieID"
  let movie_id ←
    match pyInt? movieIdStr with
    | some n => pure n
    | none => throw "ValueError"
  let ol ← basicGet row "OriginalLanguage"
  let lang_code : Option String :=
    if ol ≠ "" then
      if hasSub ['-'] ol.toList then some (splitDash ol).1 else some ol
    else none
  let original_title ← basicGet row "OriginalTitle"
  let english_title ← basicGet row "EnglishTitle"
  let budgetStr ← basicGet row "Budget"
  let budget ←
    if budgetStr = "" then pure none
    else
      match pyFloat? budgetStr with
      | some q => pure (some q)
      | none => throw "ValueError"
  let revenueStr ← basicGet row "Revenue"
  let revenue ←
    if revenueStr = "" then pure none
    else
      match pyFloat? revenueStr with
      | some q => pure (some q)
      | none => throw "ValueError"
  let homepage ← basicGet row "Homepage"
  let runtimeStr ← basicGet row "Runtime"
  let runtime ←
    if runtimeStr = "" then pure none
    else
      match pyInt? runtimeStr with
      | some n => pure (some n)
      | none => throw "ValueError"
  let dateStr ← basicGet row "ReleaseDate"
  let release_date ←
    if dateStr = "" then pure none
    else
      match parseDate? dateStr with
      | some d => pure (some d)
      | none => throw "ValueError"
  let r : MovieRow :=
    { movie_id := movie_id
      original_language_code := lang_code
      original_title := some original_title
      english_title := some english_title
      budget := budget
      revenue := revenue
      homepage := some homepage
      runtime := runtime
      release_date := release_date }
  let db := { db with movie := insertMovieIfAbsent db.movie r }
  let genres ← basicGet row "Genres"
  let db := basicGenres db movie_id genres
  let companies ← basicGet row "ProductionCompanies"
  let db := basicCompanies db movie_id companies
  let countries ← basicGet row "ProductionCountries"
  let db := basicCountries db movie_id countries
  let sl ← basicGet row "SpokenLanguages"
  let db := basicSpoken db movie_id sl
  let castIds ← basicGet row "CastID"
  return basicCast db movie_id castIds

/-! ## Schema creation and orchestration -/

/-- The data-loading stages each variant `main` runs after `create_tables`. -/
inductive Stage where
  | persons
  | movies
  | ratings
  | kaggle
deriving DecidableEq

/-- `create_tables` of the scripts variant: on a DDL failure it prints a
diagnostic and calls `sys.exit(1)`, aborting the process. -/
def createTablesScriptsAborts (schemaOk : Bool) : Bool :=
  !schemaOk

/-- `create_tables` of the basic variant: on a DDL failure it prints a
diagnostic and returns normally — the caller is never told. -/
def createTablesBasicAborts (_schemaOk : Bool) : Bool :=
  false

/-- The stages executed by the scripts `main` as a function of whether the
schema script succeeded. -/
def scriptsMainStages (schemaOk : Bool) : List Stage :=
  if createTablesScriptsAborts schemaOk then []
  else [Stage.persons, Stage.movies, Stage.ratings, Stage.kaggle]

/-- The stages executed by the basic `main` as a function of whether the
schema script succeeded (the basic variant has no Kaggle stage). -/
def basicMainStages (schemaOk : Bool) : List Stage :=
  if createTablesBasicAborts schemaOk then []
  else [Stage.persons, Stage.movies, Stage.ratings]

/-! ## The composite-field parser as the spec describes it, and as coded -/

/-- The inline tokenization the loaders apply to a pipe-delimited composite
field: the whole raw cell is stripped, a falsy (empty) result yields no
tokens, otherwise a plain `split("|")` — tokens are NOT individually stripped
and empty tokens are NOT dropped here. -/
def splitComposite (raw : String) : List String :=
  let g := pyStrip raw
  if g = "" then [] else pySplitStr '|' g

/-- Modelled from the spec: the `split_composite` contract of section 4.1 —
tokens in source order, each trimmed of surrounding whitespace, empty tokens
dropped.  Defined only to compare the coded behaviour against the specified
one. -/
def specSplitComposite (raw : String) : List String :=
  ((pySplitStr '|' raw).map pyStrip).filter (fun t => t ≠ "")

/-- The composed parse the loaders apply to a coded composite field such as
the spoken-language list: tokenize, keep only tokens containing a dash, split
each at its first dash. -/
def splitCodedTokens (tokens : List String) : List (String × String) :=
  (tokens.filter (fun t => hasSub ['-'] t.toList)).map splitDash


/-! ## Concrete inputs used by the claim theorems -/

/-- A minimal Kaggle export: a header line and two data records with distinct,
non-blank titles.  Columns the loader reads but the record lacks come back as
the empty string through `row.get(..., "")`, which is the defensive default
the source itself uses. -/
def exKaggleFile : List (List String) :=
  [["Series_Title", "Director"],
   ["Inception", "Christopher Nolan"],
   ["The Matrix", "Lana Wachowski"]]

/-- Movie rows with ids 1, 2 and 5; id 1 is titled "Inception". -/
def exMovies125 : List MovieRow :=
  [{ movie_id := 1, original_title := some "Inception" },
   { movie_id := 2, original_title := some "Heat" },
   { movie_id := 5, original_title := some "Alien" }]

/-- The movie row a subsequent allocation would write with id 6. -/
def exRow6 : MovieRow :=
  { movie_id := 6, original_title := some "Dunkirk" }

/-- The column set of the original movies source, as the basic variant
requires all of them to be present. -/
def exBasicCols : List String :=
  ["MovieID", "OriginalLanguage", "OriginalTitle", "EnglishTitle", "Budget", "Revenue",
   "Homepage", "Runtime", "ReleaseDate", "Genres", "ProductionCompanies",
   "ProductionCountries", "SpokenLanguages", "CastID"]

/-- A well-formed movies row whose `CastID` cell names a cast id that is
absent from the person table. -/
def exBasicRowCast : CsvRow :=
  dictOfPairs (exBasicCols.zip
    ["10", "", "Gladiator", "", "", "", "", "", "", "", "", "", "", "999"])

/-- A movies row with the non-numeric id of the spec's own example. -/
def exBasicRowAbc : CsvRow :=
  dictOfPairs (exBasicCols.zip
    ["abc", "", "Gladiator", "", "", "", "", "", "", "", "", "", "", ""])

/-- A person table holding one person whose cast id is "1". -/
def exBDbPersons : BDB := { person := [("1", "Alice", none)] }

/-- A scripts-variant movies row with a numeric id but a non-numeric budget. -/
def exScriptsRowBadBudget : CsvRow :=
  dictOfPairs [("MovieID", "7"), ("Budget", "abc")]

/-- A two-row movies file that registers language code "en" first with the
label "English" and then with a blank label. -/
def exLangFile : List (List String) :=
  [["OriginalLanguage"], ["en-English"], ["en-"]]

/-- The rows fed to the Kaggle pass-2 witness: one title that already exists
and one new title. -/
def exKRows : List CsvRow :=
  [dictOfPairs [("Series_Title", "Inception")],
   dictOfPairs [("Series_Title", "Dunkirk")]]

/-- A database whose movie table is `exMovies125`. -/
def exKDb5 : DB := { movie := exMovies125 }

/-- The database after running Kaggle pass 2 on `exKRows` from `exKDb5`. -/
def exKDb5After : DB := { movie := exMovies125 ++ [exRow6] }

/-- Referential integrity of the Kaggle-written association tables: every
genre, director and cast association row points at an existing reference
row. -/
def kaggleAssocFKsOk (db : DB) : Prop :=
  (∀ p ∈ db.movie_genre, ∃ g ∈ db.genre, g.1 = p.2) ∧
  (∀ p ∈ db.movie_director, ∃ d ∈ db.director, d.1 = p.2) ∧
  (∀ p ∈ db.movie_cast, ∃ q ∈ db.person, q.1 = p.2)

instance (db : DB) : Decidable (kaggleAssocFKsOk db) := by
  unfold kaggleAssocFKsOk
  infer_instance

/-- The movie-table invariant maintained by Kaggle pass 2: the table only
grows, ids stay distinct, the set of rows bearing a title that was already
stored never changes, and no title gains a second row. -/
def KInv (base cur : List MovieRow) : Prop :=
  (∃ new, cur = base ++ new) ∧
  ((cur.map (fun m => m.movie_id)).Nodup) ∧
  (∀ t, hasTitle base t = true →
    cur.filter (fun m => m.original_title == some t) =
      base.filter (fun m => m.original_title == some t)) ∧
  (∀ t, (cur.filter (fun m => m.original_title == some t)).length ≤
    max 1 (base.filter (fun m => m.original_title == some t)).length)

/-- A database with one genre, one director and one person registered. -/
def exC3Db : DB :=
  { genre := [(1, "Action")], director := [(1, "Christopher Nolan")],
    person := [(1, "Leonardo DiCaprio")] }

/-- A Kaggle row resolving one genre, the director and one star, while one
genre and one star are unregistered (and are silently dropped). -/
def exC3Row : CsvRow :=
  dictOfPairs [("Series_Title", "Inception"), ("Genre", "Action, Sci-Fi"),
    ("Director", "Christopher Nolan"), ("Star1", "Leonardo DiCaprio"),
    ("Star2", "Ken Watanabe")]

/-- The database `kagglePass2Step` produces from `exC3Db` and `exC3Row`. -/
def exC3DbAfter : DB :=
  { genre := [(1, "Action")], director := [(1, "Christopher Nolan")],
    person := [(1, "Leonardo DiCaprio")],
    movie := [{ movie_id := 1, original_title := some "Inception" }],
    movie_genre := [(1, 1)], movie_director := [(1, 1)], movie_cast := [(1, 1)] }

/-! ## C1 -/

/-- C1: REFUTED (code bug).  The claim (and the spec) say the Kaggle pass-2
rewind skips the header line and re-parses each data row, inserting a fresh
movie row for every non-blank, not-yet-stored title.  In the source,
`next(f)` consumes the header and the new `csv.DictReader` then consumes the
FIRST DATA ROW as its field names, so every remaining row is mis-keyed and
`row.get("Series_Title", "")` is blank for all of them: on a file with two
data rows carrying fresh non-blank titles, the full Kaggle loader writes no
movie row at all (only the pass-1 director registrations reach the
database). -/
theorem kaggle_pass2_header_bug :
    load_kaggle_data {} exKaggleFile =
      .ok { director := [(1, "Christopher Nolan"), (2, "Lana Wachowski")] } ∧
    (dictRows exKaggleFile).map (fun r => pyStrip (rowGet r "Series_Title")) =
      ["Inception", "The Matrix"] ∧
    (({} : DB)).movie = [] ∧
    ({ director := [(1, "Christopher Nolan"), (2, "Lana Wachowski")] } : DB).movie = [] := by
  decide

/-! ## C8 -/

/-- C8 counterexample: in the basic variant a schema-creation failure is
caught, printed and swallowed, so all three loading stages still execute —
the run does not abort. -/
theorem basic_schema_failure_continues_cex :
    basicMainStages false = [Stage.persons, Stage.movies, Stage.ratings] ∧
    basicMainStages false ≠ [] := by decide

/-- C8 (amended): only the scripts variant aborts before any loading stage on
a schema-creation failure (`sys.exit(1)`); the basic variant merely prints
the error and proceeds to run its persons, movies and ratings stages. -/
theorem schema_failure_abort_amended :
    scriptsMainStages false = [] ∧
    scriptsMainStages true = [Stage.persons, Stage.movies, Stage.ratings, Stage.kaggle] ∧
    basicMainStages false = [Stage.persons, Stage.movies, Stage.ratings] := by decide

/-! ## C7 -/

/-- C7 counterexample: the inline pipe tokenization does not trim tokens and
does not drop empty tokens; it differs from the specified `split_composite`
contract already on "a| b". -/
theorem split_composite_untrimmed_cex :
    splitComposite "a| b" = ["a", " b"] ∧
    splitComposite "a||b" = ["a", "", "b"] ∧
    specSplitComposite "a| b" = ["a", "b"] ∧
    splitComposite "a| b" ≠ specSplitComposite "a| b" := by decide

/-! ## C4 (counterexample) -/

/-- C4 counterexample: in the basic variant a movies row with
`MovieID = "abc"` raises `ValueError` out of the row loop (the bare
`int(row["MovieID"])` has no guard), so the failure does propagate past the
row, contrary to the claim. -/
theorem basic_bad_movieid_raises_cex :
    basicMoviesStep exBDbPersons exBasicRowAbc = .error "ValueError" := by decide

/-! ## C3 (counterexample) -/

/-- C3 counterexample: the basic variant writes `movie_cast` association rows
from the raw `CastID` cell with no lookup against the person table; with a
person table containing only cast id "1", a valid movies row naming cast id
"999" produces a `movie_cast` row whose foreign key exists in no person
row. -/
theorem movie_cast_dangling_fk_cex :
    basicMoviesStep exBDbPersons exBasicRowCast =
      .ok { person := [("1", "Alice", none)],
            movie := [{ movie_id := 10, original_title := some "Gladiator",
                        english_title := some "", homepage := some "" }],
            movie_cast := [(10, "999")] } ∧
    (10, "999") ∈ [((10 : Int), "999")] ∧
    ∀ p ∈ [("1", "Alice", (none : Option Int))], p.1 ≠ "999" := by decide

/-! ## C2 -/

/-- C2 counterexample: registering language code "en" first with the label
"English" and then with a blank label leaves the blank label in the registry
dict (Python dict assignment overwrites), and the flush then stores
"Unknown" — not the first-seen "English" the claim requires. -/
theorem language_label_overwritten_cex :
    (scriptsMoviesPass1 (dictRows exLangFile)).languages = [("en", some "")] ∧
    load_movies {} exLangFile = .ok { language := [("en", "Unknown")] } ∧
    lookupCode [("en", "Unknown")] "en" = some "Unknown" ∧
    some "Unknown" ≠ some "English" := by decide

/-- Python dict assignment stores the new value for the key. -/
theorem dictGet_dictInsert {α : Type} (d : List (String × α)) (k : String) (v : α) :
    dictGet (dictInsert d k v) k = some v := by
  unfold dictInsert
  by_cases h : d.any (fun p => p.1 == k)
  · simp only [h, if_true]
    induction d with
    | nil => simp at h
    | cons p rest ih =>
      by_cases hp : p.1 = k
      · simp [dictGet, List.find?, hp]
      · have : rest.any (fun q => q.1 == k) = true := by
          simp only [List.any_cons] at h
          rcases Bool.or_eq_true_iff.mp h with h1 | h2
          · exact absurd (by simpa using h1) hp
          · exact h2
        simp only [List.map_cons, if_neg hp]
        simpa [dictGet, List.find?_cons, beq_iff_eq, hp] using ih this
  · simp only [h, if_false]
    induction d with
    | nil => simp [dictGet]
    | cons p rest ih =>
      simp only [List.any_cons, Bool.or_eq_true_iff, not_or] at h
      have hp : ¬ (p.1 = k) := by simpa using h.1
      have := ih (by simpa using h.2)
      simpa [dictGet, List.find?_cons, beq_iff_eq, hp] using this

/-- `INSERT OR IGNORE` on `language`/`country` leaves an already-stored label
unchanged. -/
theorem lookupCode_keeps (t : List (String × String)) (code lbl name : String)
    (h : lookupCode t code = some name) :
    lookupCode (insertCodeIfAbsent t code lbl) code = some name := by
  unfold insertCodeIfAbsent
  have hany : t.any (fun p => p.1 == code) = true := by
    unfold lookupCode dictGet at h
    cases hf : t.find? (fun p => p.1 == code) with
    | none => rw [hf] at h; simp at h
    | some p =>
      have hmem := List.mem_of_find?_eq_some hf
      have hpred := List.find?_some hf
      exact List.any_eq_true.mpr ⟨p, hmem, hpred⟩
  simp [hany, h]

/-- C2 (amended): re-registering a code in the in-memory registry overwrites
its label — the LAST write wins, not the first; first-seen semantics hold
only at the storage flush, whose `INSERT OR IGNORE` leaves a label already
present in the table untouched (and the flush turns a blank final label into
"Unknown", so a blank label is never stored verbatim). -/
theorem language_register_last_write_wins (d : List (String × Option String))
    (code : String) (l1 l2 : Option String) :
    dictGet (dictInsert (dictInsert d code l1) code l2) code = some l2 ∧
    ∀ (t : List (String × String)) (lbl name : String),
      lookupCode t code = some name →
      lookupCode (insertCodeIfAbsent t code lbl) code = some name := by
  constructor
  · exact dictGet_dictInsert (dictInsert d code l1) code l2
  · intro t lbl name h
    exact lookupCode_keeps t code lbl name h

/-- C2 amended, witness at the spec's own example values. -/
theorem language_register_last_write_wins_witness :
    dictGet (dictInsert (dictInsert [] "en" (some "English")) "en" (some "")) "en" =
      some (some "") ∧
    lookupCode [("en", "English")] "en" = some "English" ∧
    lookupCode (insertCodeIfAbsent [("en", "English")] "en" "X") "en" = some "English" :=
  ⟨(language_register_last_write_wins [] "en" (some "English") (some "")).1,
   by decide,
   (language_register_last_write_wins [] "en" (some "English") (some "")).2
     [("en", "English")] "X" "English" (by decide)⟩

/-! ## C4 (amended) -/

/-- C4 (amended): the scripts variant skips a row whose `MovieID` is not
numeric, with no exception and no change to the database; but neither variant
is exception-free for every malformed field — the scripts variant's bare
`float` on `Budget`/`Revenue` raises `ValueError` on a non-numeric value, and
the basic variant raises already on a non-numeric `MovieID`. -/
theorem scripts_row_validation_amended (db : DB) (row : CsvRow)
    (h : pyIsDigit (pyStrip (rowGet row "MovieID")) = false) :
    scriptsMoviesStep db row = .ok db ∧
    scriptsMoviesStep {} exScriptsRowBadBudget = .error "ValueError" := by
  constructor
  · unfold scriptsMoviesStep
    simp [h]
  · decide

/-- C4 amended, witness: the spec's `MovieID = "abc"` row is skipped without
error by the scripts variant. -/
theorem scripts_row_validation_amended_witness :
    pyIsDigit (pyStrip (rowGet exBasicRowAbc "MovieID")) = false ∧
    (scriptsMoviesStep {} exBasicRowAbc = .ok {} ∧
     scriptsMoviesStep {} exScriptsRowBadBudget = .error "ValueError") :=
  ⟨by decide, scripts_row_validation_amended {} exBasicRowAbc (by decide)⟩

/-! ## C7 (amended) and C10 -/

/-- A Python split never yields an empty token list. -/
theorem pySplit_ne_nil (sep : Char) (l : List Char) : pySplit sep l ≠ [] := by
  cases l with
  | nil => simp [pySplit]
  | cons c rest =>
    unfold pySplit
    cases h : pySplit sep rest with
    | nil => simp
    | cons t ts =>
      by_cases hc : c = sep <;> simp [hc]

/-- Joining the pieces of a Python split with the separator restores the
input: the split loses nothing — in particular it neither trims tokens nor
drops empty ones. -/
theorem joinSep_pySplit (sep : Char) (l : List Char) : joinSep sep (pySplit sep l) = l := by
  induction l with
  | nil => simp [pySplit, joinSep]
  | cons c rest ih =>
    unfold pySplit
    cases h : pySplit sep rest with
    | nil => exact absurd h (pySplit_ne_nil sep rest)
    | cons t ts =>
      rw [h] at ih
      by_cases hc : c = sep
      · subst hc
        simp only [if_pos rfl]
        show joinSep c ([] :: t :: ts) = c :: rest
        unfold joinSep
        simpa using ih
      · simp only [if_neg hc]
        cases ts with
        | nil =>
          show joinSep sep [c :: t] = c :: rest
          unfold joinSep
          simp only [joinSep] at ih
          simp [ih]
        | cons t2 ts2 =>
          show joinSep sep ((c :: t) :: t2 :: ts2) = c :: rest
          unfold joinSep
          simp only [joinSep] at ih
          simp [← ih]

/-- C7 (amended): the coded tokenization strips the raw cell as a whole and
yields no tokens for a blank cell, but the individual tokens are exactly the
split pieces, untrimmed and with empty tokens retained (joining them with the
separator restores the stripped cell); the composed parse of "a-X|b-Y" does
yield [("a","X"), ("b","Y")] in order. -/
theorem split_composite_amended (raw : String) :
    (pyStrip raw = "" → splitComposite raw = []) ∧
    (pyStrip raw ≠ "" →
      joinSep '|' ((splitComposite raw).map String.toList) = (pyStrip raw).toList) ∧
    splitCodedTokens (splitComposite "a-X|b-Y") = [("a", "X"), ("b", "Y")] ∧
    splitComposite "" = [] := by
  refine ⟨?_, ?_, by decide, by decide⟩
  · intro h
    unfold splitComposite
    simp [h]
  · intro h
    unfold splitComposite pySplitStr
    rw [if_neg h, List.map_map]
    have hcomp : (String.toList ∘ String.mk) = id := funext (fun l => rfl)
    rw [hcomp, List.map_id]
    exact joinSep_pySplit '|' (pyStrip raw).toList

/-- C7 amended, witness at the spec's example field. -/
theorem split_composite_amended_witness :
    (pyStrip "a-X|b-Y" ≠ "") ∧
    ((pyStrip "a-X|b-Y" = "" → splitComposite "a-X|b-Y" = []) ∧
     (pyStrip "a-X|b-Y" ≠ "" →
       joinSep '|' ((splitComposite "a-X|b-Y").map String.toList) =
         (pyStrip "a-X|b-Y").toList) ∧
     splitCodedTokens (splitComposite "a-X|b-Y") = [("a", "X"), ("b", "Y")] ∧
     splitComposite "" = []) :=
  ⟨by decide, split_composite_amended "a-X|b-Y"⟩

/-- A maxsplit-1 Python split breaks at the FIRST separator occurrence. -/
theorem pySplit1_first (sep : Char) (p r : List Char) (hp : sep ∉ p) :
    pySplit1 sep (p ++ sep :: r) = [p, r] := by
  induction p with
  | nil => simp [pySplit1]
  | cons c cs ih =>
    have hc : ¬ (c = sep) := fun h => hp (h ▸ List.mem_cons_self c cs)
    have ih2 := ih (fun h => hp (List.mem_cons_of_mem c h))
    simp [pySplit1, hc, ih2]

/-- C10: the coded-token split uses the first dash: the code is the text
before the first dash and the label is the entire remainder, later dashes
included. -/
theorem split_coded_first_dash (p r : List Char) (hp : '-' ∉ p) :
    splitCoded (String.mk (p ++ '-' :: r)) = (String.mk p, some (String.mk r)) := by
  unfold splitCoded
  have ht : (String.mk (p ++ '-' :: r)).toList = p ++ '-' :: r := rfl
  rw [ht, pySplit1_first '-' p r hp]

/-- C10 witness: "a-b-c" parses to code "a" and label "b-c". -/
theorem split_coded_first_dash_witness :
    ('-' ∉ ['a']) ∧
    splitCoded (String.mk (['a'] ++ '-' :: ['b', '-', 'c'])) =
      (String.mk ['a'], some (String.mk ['b', '-', 'c'])) :=
  ⟨by decide, split_coded_first_dash ['a'] ['b', '-', 'c'] (by decide)⟩

/-! ## C6 -/

/-- `SELECT MAX` over a table extended by one row. -/
theorem maxMovieId?_append (l : List MovieRow) (r : MovieRow) :
    maxMovieId? (l ++ [r]) =
      some (match maxMovieId? l with
            | none => r.movie_id
            | some M => max M r.movie_id) := by
  induction l with
  | nil => simp [maxMovieId?]
  | cons m rest ih =>
    show maxMovieId? (m :: (rest ++ [r])) = _
    unfold maxMovieId?
    rw [ih]
    cases h : maxMovieId? rest with
    | none => simp
    | some x => simp [max_assoc]

/-- `SELECT MAX` is NULL exactly on the empty table. -/
theorem maxMovieId?_eq_none_iff (l : List MovieRow) : maxMovieId? l = none ↔ l = [] := by
  cases l with
  | nil => simp [maxMovieId?]
  | cons m rest =>
    unfold maxMovieId?
    cases h : maxMovieId? rest <;> simp

/-- Every stored movie id is bounded by the table maximum. -/
theorem le_maxMovieId? (movies : List MovieRow) (m : MovieRow) (h : m ∈ movies) :
    ∃ M, maxMovieId? movies = some M ∧ m.movie_id ≤ M := by
  induction movies with
  | nil => cases h
  | cons a rest ih =>
    rcases List.mem_cons.mp h with h1 | h2
    · subst h1
      unfold maxMovieId?
      cases hr : maxMovieId? rest with
      | none => exact ⟨m.movie_id, rfl, le_refl _⟩
      | some x => exact ⟨max m.movie_id x, rfl, le_max_left _ _⟩
    · obtain ⟨M, hM, hle⟩ := ih h2
      unfold maxMovieId?
      rw [hM]
      exact ⟨max a.movie_id M, rfl, le_trans hle (le_max_right _ _)⟩

/-- The allocated id is strictly larger than every stored id: the allocator
never hands out an id that is already present. -/
theorem movie_id_lt_nextKaggleId (movies : List MovieRow) (m : MovieRow) (h : m ∈ movies) :
    m.movie_id < nextKaggleId movies := by
  obtain ⟨M, hM, hle⟩ := le_maxMovieId? movies m h
  unfold nextKaggleId
  rw [hM]
  by_cases hz : M = 0
  · subst hz; simp; omega
  · simp [hz]; omega

/-- C6: the surrogate-id allocator returns 1 on an empty movie table and
`MAX + 1` otherwise, and because it re-queries the table it observes a row
written by an earlier allocation in the same run: allocating again after
inserting the row carrying the previous allocation yields the next integer. -/
theorem next_id_allocator_spec (movies : List MovieRow) :
    (movies = [] ↔ maxMovieId? movies = none) ∧
    (maxMovieId? movies = none → nextKaggleId movies = 1) ∧
    (∀ M : Int, maxMovieId? movies = some M → nextKaggleId movies = M + 1) ∧
    (∀ r : MovieRow, r.movie_id = nextKaggleId movies →
      (maxMovieId? movies = none ∨ ∃ M, maxMovieId? movies = some M ∧ 0 ≤ M) →
      nextKaggleId (movies ++ [r]) = nextKaggleId movies + 1) := by
  refine ⟨(maxMovieId?_eq_none_iff movies).symm, ?_, ?_, ?_⟩
  · intro h; unfold nextKaggleId; rw [h]
  · intro M hM
    unfold nextKaggleId
    rw [hM]
    by_cases hz : M = 0
    · subst hz; simp
    · simp [hz]
  · intro r hr hcase
    rcases hcase with hnone | ⟨M, hM, hMnn⟩
    · have hnil : movies = [] := (maxMovieId?_eq_none_iff movies).mp hnone
      subst hnil
      have h1 : nextKaggleId ([] : List MovieRow) = 1 := rfl
      rw [h1] at hr ⊢
      simp only [List.nil_append]
      have h2 : maxMovieId? [r] = some r.movie_id := rfl
      unfold nextKaggleId
      rw [h2, hr]
      norm_num
    · have hnext : nextKaggleId movies = M + 1 := by
        unfold nextKaggleId
        rw [hM]
        by_cases hz : M = 0
        · subst hz; simp
        · simp [hz]
      rw [hnext] at hr ⊢
      unfold nextKaggleId
      rw [maxMovieId?_append movies r, hM]
      simp only []
      rw [hr]
      have hmax : max M (M + 1) = M + 1 := by omega
      rw [hmax]
      have : ¬ (M + 1 = 0) := by omega
      simp [this]

/-- C6 witness: with stored ids 1, 2, 5 the allocator yields 6; after the
id-6 row is written it yields 7 — never reusing 3 or 4, never repeating 6. -/
theorem next_id_allocator_spec_witness :
    maxMovieId? exMovies125 = some 5 ∧
    nextKaggleId exMovies125 = 5 + 1 ∧
    exRow6.movie_id = nextKaggleId exMovies125 ∧
    nextKaggleId (exMovies125 ++ [exRow6]) = nextKaggleId exMovies125 + 1 :=
  ⟨by decide,
   (next_id_allocator_spec exMovies125).2.2.1 5 (by decide),
   by decide,
   (next_id_allocator_spec exMovies125).2.2.2 exRow6 (by decide)
     (Or.inr ⟨5, by decide, by decide⟩)⟩

/-! ## C3 (amended) and C5 -/

/-- Membership after an `INSERT OR IGNORE` into an association table. -/
theorem mem_insertPair {α : Type} [DecidableEq α] (t : List α) (x p : α)
    (h : p ∈ insertPair t x) : p ∈ t ∨ p = x := by
  unfold insertPair at h
  by_cases hx : x ∈ t
  · rw [if_pos hx] at h; exact Or.inl h
  · rw [if_neg hx] at h
    rcases List.mem_append.mp h with h1 | h2
    · exact Or.inl h1
    · exact Or.inr (List.mem_singleton.mp h2)

/-- A successful resolver lookup returns the id of a stored reference row. -/
theorem lookupRefId_some (t : List (Nat × String)) (name : String) (i : Nat)
    (h : lookupRefId t name = some i) : ∃ g ∈ t, g.1 = i := by
  unfold lookupRefId at h
  cases hf : t.find? (fun g => g.2 == name) with
  | none => rw [hf] at h; simp at h
  | some g =>
    rw [hf] at h
    simp at h
    exact ⟨g, List.mem_of_find?_eq_some hf, h⟩

/-- The two possible outcomes of one genre-association step. -/
theorem kaggleGenreStep_cases (mid : Int) (acc : DB) (g : String) :
    kaggleGenreStep mid acc g = acc ∨
    ∃ gid, lookupRefId acc.genre g = some gid ∧
      kaggleGenreStep mid acc g =
        { acc with movie_genre := insertPair acc.movie_genre (mid, gid) } := by
  unfold kaggleGenreStep
  cases hl : lookupRefId acc.genre g with
  | none => exact Or.inl rfl
  | some gid => exact Or.inr ⟨gid, rfl, rfl⟩

/-- The genre-association loop touches only `movie_genre`, and every row it
adds references a stored genre. -/
theorem kaggleGenresFold_spec (mid : Int) (l : List String) :
    ∀ db : DB,
      (l.foldl (kaggleGenreStep mid) db).movie = db.movie ∧
      (l.foldl (kaggleGenreStep mid) db).genre = db.genre ∧
      (l.foldl (kaggleGenreStep mid) db).director = db.director ∧
      (l.foldl (kaggleGenreStep mid) db).person = db.person ∧
      (l.foldl (kaggleGenreStep mid) db).movie_director = db.movie_director ∧
      (l.foldl (kaggleGenreStep mid) db).movie_cast = db.movie_cast ∧
      ∀ p ∈ (l.foldl (kaggleGenreStep mid) db).movie_genre,
        p ∈ db.movie_genre ∨ ∃ g ∈ db.genre, g.1 = p.2 := by
  induction l with
  | nil => exact fun db => ⟨rfl, rfl, rfl, rfl, rfl, rfl, fun p hp => Or.inl hp⟩
  | cons g gs ih =>
    intro db
    rw [List.foldl_cons]
    rcases kaggleGenreStep_cases mid db g with hid | ⟨gid, hl, heq⟩
    · rw [hid]; exact ih db
    · rw [heq]
      obtain ⟨h1, h2, h3, h4, h5, h6, h7⟩ :=
        ih { db with movie_genre := insertPair db.movie_genre (mid, gid) }
      refine ⟨h1, h2, h3, h4, h5, h6, fun p hp => ?_⟩
      rcases h7 p hp with hin | hex
      · rcases mem_insertPair db.movie_genre (mid, gid) p hin with hin2 | hpe
        · exact Or.inl hin2
        · subst hpe
          exact Or.inr (lookupRefId_some db.genre g gid hl)
      · exact Or.inr hex

/-- `kaggleGenres` touches only `movie_genre`, writing FK-resolved rows. -/
theorem kaggleGenres_spec (db : DB) (mid : Int) (row : CsvRow) :
    (kaggleGenres db mid row).movie = db.movie ∧
    (kaggleGenres db mid row).genre = db.genre ∧
    (kaggleGenres db mid row).director = db.director ∧
    (kaggleGenres db mid row).person = db.person ∧
    (kaggleGenres db mid row).movie_director = db.movie_director ∧
    (kaggleGenres db mid row).movie_cast = db.movie_cast ∧
    ∀ p ∈ (kaggleGenres db mid row).movie_genre,
      p ∈ db.movie_genre ∨ ∃ g ∈ db.genre, g.1 = p.2 := by
  unfold kaggleGenres
  by_cases hg : pyStrip (rowGet row "Genre") ≠ ""
  · rw [if_pos hg]
    exact kaggleGenresFold_spec mid _ db
  · rw [if_neg hg]
    exact ⟨rfl, rfl, rfl, rfl, rfl, rfl, fun p hp => Or.inl hp⟩

/-- `kaggleDirector` touches only `movie_director`, writing FK-resolved
rows. -/
theorem kaggleDirector_spec (db : DB) (mid : Int) (row : CsvRow) :
    (kaggleDirector db mid row).movie = db.movie ∧
    (kaggleDirector db mid row).genre = db.genre ∧
    (kaggleDirector db mid row).director = db.director ∧
    (kaggleDirector db mid row).person = db.person ∧
    (kaggleDirector db mid row).movie_genre = db.movie_genre ∧
    (kaggleDirector db mid row).movie_cast = db.movie_cast ∧
    ∀ p ∈ (kaggleDirector db mid row).movie_director,
      p ∈ db.movie_director ∨ ∃ d ∈ db.director, d.1 = p.2 := by
  unfold kaggleDirector
  by_cases hd : pyStrip (rowGet row "Director") ≠ ""
  · rw [if_pos hd]
    cases hl : lookupRefId db.director (pyStrip (rowGet row "Director")) with
    | none => exact ⟨rfl, rfl, rfl, rfl, rfl, rfl, fun p hp => Or.inl hp⟩
    | some did =>
      refine ⟨rfl, rfl, rfl, rfl, rfl, rfl, fun p hp => ?_⟩
      rcases mem_insertPair db.movie_director (mid, did) p hp with hin | hpe
      · exact Or.inl hin
      · subst hpe
        exact Or.inr (lookupRefId_some db.director _ did hl)
  · rw [if_neg hd]
    exact ⟨rfl, rfl, rfl, rfl, rfl, rfl, fun p hp => Or.inl hp⟩

/-- The two possible outcomes of one cast-association step. -/
theorem kaggleStarStep_cases (mid : Int) (acc : DB) (st : String) :
    kaggleStarStep mid acc st = acc ∨
    ∃ pid, lookupRefId acc.person st = some pid ∧
      kaggleStarStep mid acc st =
        { acc with movie_cast := insertPair acc.movie_cast (mid, pid) } := by
  unfold kaggleStarStep
  cases hl : lookupRefId acc.person st with
  | none => exact Or.inl rfl
  | some pid => exact Or.inr ⟨pid, rfl, rfl⟩

/-- The cast-association loop touches only `movie_cast`, writing FK-resolved
rows. -/
theorem kaggleStarsFold_spec (mid : Int) (l : List String) :
    ∀ db : DB,
      (l.foldl (kaggleStarStep mid) db).movie = db.movie ∧
      (l.foldl (kaggleStarStep mid) db).genre = db.genre ∧
      (l.foldl (kaggleStarStep mid) db).director = db.director ∧
      (l.foldl (kaggleStarStep mid) db).person = db.person ∧
      (l.foldl (kaggleStarStep mid) db).movie_genre = db.movie_genre ∧
      (l.foldl (kaggleStarStep mid) db).movie_director = db.movie_director ∧
      ∀ p ∈ (l.foldl (kaggleStarStep mid) db).movie_cast,
        p ∈ db.movie_cast ∨ ∃ q ∈ db.person, q.1 = p.2 := by
  induction l with
  | nil => exact fun db => ⟨rfl, rfl, rfl, rfl, rfl, rfl, fun p hp => Or.inl hp⟩
  | cons st sts ih =>
    intro db
    rw [List.foldl_cons]
    rcases kaggleStarStep_cases mid db st with hid | ⟨pid, hl, heq⟩
    · rw [hid]; exact ih db
    · rw [heq]
      obtain ⟨h1, h2, h3, h4, h5, h6, h7⟩ :=
        ih { db with movie_cast := insertPair db.movie_cast (mid, pid) }
      refine ⟨h1, h2, h3, h4, h5, h6, fun p hp => ?_⟩
      rcases h7 p hp with hin | hex
      · rcases mem_insertPair db.movie_cast (mid, pid) p hin with hin2 | hpe
        · exact Or.inl hin2
        · subst hpe
          exact Or.inr (lookupRefId_some db.person st pid hl)
      · exact Or.inr hex

/-- `kaggleStars` touches only `movie_cast`, writing FK-resolved rows. -/
theorem kaggleStars_spec (db : DB) (mid : Int) (row : CsvRow) :
    (kaggleStars db mid row).movie = db.movie ∧
    (kaggleStars db mid row).genre = db.genre ∧
    (kaggleStars db mid row).director = db.director ∧
    (kaggleStars db mid row).person = db.person ∧
    (kaggleStars db mid row).movie_genre = db.movie_genre ∧
    (kaggleStars db mid row).movie_director = db.movie_director ∧
    ∀ p ∈ (kaggleStars db mid row).movie_cast,
      p ∈ db.movie_cast ∨ ∃ q ∈ db.person, q.1 = p.2 := by
  unfold kaggleStars
  exact kaggleStarsFold_spec mid _ db

/-- A fresh movie id makes `INSERT OR IGNORE` into `movie` a plain append. -/
theorem insertMovieIfAbsent_fresh (movies : List MovieRow) (r : MovieRow)
    (h : ∀ m ∈ movies, m.movie_id ≠ r.movie_id) :
    insertMovieIfAbsent movies r = movies ++ [r] := by
  unfold insertMovieIfAbsent
  have hany : movies.any (fun m => m.movie_id == r.movie_id) = false := by
    rw [List.any_eq_false]
    intro m hm
    simpa using h m hm
  rw [hany]
  simp

/-- Case analysis of one successful Kaggle pass-2 row: the reference tables
never change; the movie table is unchanged or gains exactly one row carrying
the freshly allocated id and a title that was not yet stored; and every new
association row is FK-resolved against the untouched reference tables. -/
theorem kagglePass2Step_ok (db db2 : DB) (row : CsvRow)
    (h : kagglePass2Step db row = .ok db2) :
    (db2.genre = db.genre ∧ db2.director = db.director ∧ db2.person = db.person) ∧
    (db2.movie = db.movie ∨
      ∃ r : MovieRow, db2.movie = db.movie ++ [r] ∧
        r.movie_id = nextKaggleId db.movie ∧
        ∃ t, r.original_title = some t ∧ hasTitle db.movie t = false) ∧
    (∀ p ∈ db2.movie_genre, p ∈ db.movie_genre ∨ ∃ g ∈ db.genre, g.1 = p.2) ∧
    (∀ p ∈ db2.movie_director, p ∈ db.movie_director ∨ ∃ d ∈ db.director, d.1 = p.2) ∧
    (∀ p ∈ db2.movie_cast, p ∈ db.movie_cast ∨ ∃ q ∈ db.person, q.1 = p.2) := by
  unfold kagglePass2Step at h
  by_cases hT : pyStrip (rowGet row "Series_Title") = ""
  · rw [if_pos hT] at h
    injection h with h
    subst h
    exact ⟨⟨rfl, rfl, rfl⟩, Or.inl rfl, fun p hp => Or.inl hp, fun p hp => Or.inl hp,
      fun p hp => Or.inl hp⟩
  · rw [if_neg hT] at h
    by_cases hHT : hasTitle db.movie (pyStrip (rowGet row "Series_Title")) = true
    · rw [if_pos hHT] at h
      injection h with h
      subst h
      exact ⟨⟨rfl, rfl, rfl⟩, Or.inl rfl, fun p hp => Or.inl hp, fun p hp => Or.inl hp,
        fun p hp => Or.inl hp⟩
    · rw [if_neg hHT] at h
      cases hrt : kaggleRuntime? row with
      | error e => rw [hrt] at h; cases h
      | ok rt =>
        rw [hrt] at h
        injection h with h
        set mt := pyStrip (rowGet row "Series_Title") with hmt
        set mid := nextKaggleId db.movie with hmid
        set r0 := kaggleMovieRow mid mt rt row with hr0
        set db1 : DB := { db with movie := insertMovieIfAbsent db.movie r0 } with hdb1
        obtain ⟨g1, g2, g3, g4, g5, g6, g7⟩ := kaggleGenres_spec db1 mid row
        obtain ⟨d1, d2, d3, d4, d5, d6, d7⟩ :=
          kaggleDirector_spec (kaggleGenres db1 mid row) mid row
        obtain ⟨s1, s2, s3, s4, s5, s6, s7⟩ :=
          kaggleStars_spec (kaggleDirector (kaggleGenres db1 mid row) mid row) mid row
        have hdb2 :
            db2 = kaggleStars (kaggleDirector (kaggleGenres db1 mid row) mid row) mid row :=
          h.symm
        have hfresh : insertMovieIfAbsent db.movie r0 = db.movie ++ [r0] := by
          apply insertMovieIfAbsent_fresh
          intro m hm
          have hlt := movie_id_lt_nextKaggleId db.movie m hm
          have hr0id : r0.movie_id = nextKaggleId db.movie := rfl
          omega
        have hdb1movie : db1.movie = db.movie ++ [r0] := by
          rw [hdb1]
          exact hfresh
        constructor
        · refine ⟨?_, ?_, ?_⟩
          · rw [hdb2, s2, d2, g2, hdb1]
          · rw [hdb2, s3, d3, g3, hdb1]
          · rw [hdb2, s4, d4, g4, hdb1]
        constructor
        · refine Or.inr ⟨r0, ?_, rfl, mt, rfl, ?_⟩
          · rw [hdb2, s1, d1, g1, hdb1movie]
          · exact Bool.not_eq_true _ ▸ (by simpa using hHT)
        constructor
        · intro p hp
          rw [hdb2, s5, d5] at hp
          rcases g7 p hp with hin | hex
          · exact Or.inl (by simpa [hdb1] using hin)
          · exact Or.inr (by simpa [hdb1] using hex)
        constructor
        · intro p hp
          rw [hdb2, s6] at hp
          rcases d7 p hp with hin | hex
          · rw [g5] at hin
            exact Or.inl (by simpa [hdb1] using hin)
          · rw [g3] at hex
            exact Or.inr (by simpa [hdb1] using hex)
        · intro p hp
          rw [hdb2] at hp
          rcases s7 p hp with hin | hex
          · rw [d6, g6] at hin
            exact Or.inl (by simpa [hdb1] using hin)
          · rw [d4, g4] at hex
            exact Or.inr (by simpa [hdb1] using hex)

/-- C3 (amended): for the Kaggle loader, every genre, director and cast
association row written references a reference row that exists in its target
table at the time of the write, and an unresolvable natural key drops only
that association, without an error; the original-dataset loaders do the same
for genre and company associations but write country and spoken-language
codes without resolution (pass 1 registers every non-blank code first), and
the basic variant writes `movie_cast` rows entirely unresolved — the claim
fails there (see the counterexample). -/
theorem kaggle_assoc_fk_preserved (db db2 : DB) (row : CsvRow)
    (hstep : kagglePass2Step db row = .ok db2) (hok : kaggleAssocFKsOk db) :
    kaggleAssocFKsOk db2 := by
  obtain ⟨⟨hg, hd, hp⟩, _, hmg, hmd, hmc⟩ := kagglePass2Step_ok db db2 row hstep
  refine ⟨fun p hp2 => ?_, fun p hp2 => ?_, fun p hp2 => ?_⟩
  · rw [hg]
    rcases hmg p hp2 with hin | hex
    · exact hok.1 p hin
    · exact hex
  · rw [hd]
    rcases hmd p hp2 with hin | hex
    · exact hok.2.1 p hin
    · exact hex
  · rw [hp]
    rcases hmc p hp2 with hin | hex
    · exact hok.2.2 p hin
    · exact hex

/-- C3 amended, witness: a concrete step that resolves one genre, the
director and one star, drops an unregistered genre and star, and preserves
referential integrity. -/
theorem kaggle_assoc_fk_preserved_witness :
    (kagglePass2Step exC3Db exC3Row = .ok exC3DbAfter ∧ kaggleAssocFKsOk exC3Db) ∧
    kaggleAssocFKsOk exC3DbAfter :=
  ⟨⟨by decide, by decide⟩,
   kaggle_assoc_fk_preserved exC3Db exC3DbAfter exC3Row (by decide) (by decide)⟩

/-- A title found in a table is still found after rows are appended. -/
theorem hasTitle_append_left (a b : List MovieRow) (t : String) (h : hasTitle a t = true) :
    hasTitle (a ++ b) t = true := by
  unfold hasTitle at h ⊢
  rw [List.any_append, h, Bool.true_or]

/-- A failed title lookup means no stored movie carries the title. -/
theorem hasTitle_false_iff (movies : List MovieRow) (t : String) :
    hasTitle movies t = false ↔ ∀ m ∈ movies, m.original_title ≠ some t := by
  unfold hasTitle
  rw [List.any_eq_false]
  constructor
  · intro h m hm; simpa using h m hm
  · intro h m hm; simpa using h m hm

/-- An invariant preserved by every successful step is preserved by a
successful run of the whole row stream. -/
theorem foldSteps_inv {σ : Type} (f : σ → CsvRow → Except String σ) (P : σ → Prop)
    (hstep : ∀ s r s2, f s r = .ok s2 → P s → P s2) :
    ∀ (rows : List CsvRow) (s s2 : σ), foldSteps f s rows = .ok s2 → P s → P s2 := by
  intro rows
  induction rows with
  | nil =>
    intro s s2 h hp
    unfold foldSteps at h
    injection h with h
    rw [← h]
    exact hp
  | cons r rs ih =>
    intro s s2 h hp
    unfold foldSteps at h
    cases hf : f s r with
    | error e => rw [hf] at h; cases h
    | ok s3 =>
      rw [hf] at h
      exact ih s3 s2 h (hstep s r s3 hf hp)

/-- One successful Kaggle pass-2 row preserves the movie-table invariant. -/
theorem KInv_step (base : List MovieRow) (db db2 : DB) (row : CsvRow)
    (h : kagglePass2Step db row = .ok db2) (hinv : KInv base db.movie) :
    KInv base db2.movie := by
  obtain ⟨_, hmovie, _, _, _⟩ := kagglePass2Step_ok db db2 row h
  rcases hmovie with heq | ⟨r, happ, hid, t', hti, hnew⟩
  · rw [heq]; exact hinv
  · obtain ⟨⟨new, hpre⟩, hnd, hfilt, hcount⟩ := hinv
    rw [happ]
    refine ⟨⟨new ++ [r], by rw [hpre, List.append_assoc]⟩, ?_, ?_, ?_⟩
    · rw [List.map_append, List.nodup_append]
      refine ⟨hnd, List.nodup_singleton _, ?_⟩
      intro x hx hx2
      simp only [List.map_cons, List.map_nil, List.mem_singleton] at hx2
      subst hx2
      obtain ⟨m, hm, hmx⟩ := List.mem_map.mp hx
      have hlt := movie_id_lt_nextKaggleId db.movie m hm
      rw [hmx, hid] at hlt
      exact lt_irrefl _ hlt
    · intro t ht
      rw [List.filter_append]
      have hne : ¬ (t' = t) := by
        intro hE
        subst hE
        have hct : hasTitle db.movie t' = true := by
          rw [hpre]
          exact hasTitle_append_left base new t' ht
        rw [hct] at hnew
        cases hnew
      have hper : (List.filter (fun m => m.original_title == some t) [r]) = [] := by
        simp [List.filter_cons, hti, hne]
      rw [hper, List.append_nil]
      exact hfilt t ht
    · intro t
      rw [List.filter_append]
      by_cases hE : t = t'
      · subst hE
        have hnil : db.movie.filter (fun m => m.original_title == some t) = [] := by
          rw [List.filter_eq_nil_iff]
          intro m hm
          have := (hasTitle_false_iff db.movie t).mp hnew m hm
          simpa using this
        rw [hnil]
        have hper : (List.filter (fun m => m.original_title == some t) [r]) = [r] := by
          simp [List.filter_cons, hti]
        rw [hper]
        simp
      · have hper : (List.filter (fun m => m.original_title == some t) [r]) = [] := by
          have hne : ¬ (t' = t) := fun hh => hE hh.symm
          simp [List.filter_cons, hti, hne]
        rw [hper, List.append_nil]
        exact hcount t

/-- C5: if the movie table has pairwise-distinct ids before the Kaggle pass-2
merge, then after any successful run of the merge (over any parsed row
stream) the ids are still pairwise distinct — the merge never reuses an
existing id and never repeats one of its own allocations; the set of movie
rows carrying any already-stored title is exactly unchanged — re-running the
merge against an existing title inserts no second row and allocates no second
id; and no title ends up with more than one row unless it already had more
than one. -/
theorem kaggle_merge_unique_ids_no_dup_title (db db2 : DB) (rows : List CsvRow)
    (hids : (db.movie.map (fun m => m.movie_id)).Nodup)
    (hrun : kagglePass2 db rows = .ok db2) :
    ((db2.movie.map (fun m => m.movie_id)).Nodup) ∧
    (∀ t, hasTitle db.movie t = true →
      db2.movie.filter (fun m => m.original_title == some t) =
        db.movie.filter (fun m => m.original_title == some t)) ∧
    (∀ t, (db2.movie.filter (fun m => m.original_title == some t)).length ≤
      max 1 (db.movie.filter (fun m => m.original_title == some t)).length) := by
  have hinv : KInv db.movie db2.movie := by
    refine foldSteps_inv kagglePass2Step (fun s => KInv db.movie s.movie) ?_ rows db db2 hrun ?_
    · intro s r s2 hok hp
      exact KInv_step db.movie s s2 r hok hp
    · exact ⟨⟨[], by simp⟩, hids, fun t ht => rfl, fun t => le_max_right 1 _⟩
  exact ⟨hinv.2.1, hinv.2.2.1, hinv.2.2.2⟩

/-- C5 witness: from ids 1, 2, 5 with "Inception" stored, a row titled
"Inception" is skipped and a row titled "Dunkirk" gets the fresh id 6. -/
theorem kaggle_merge_unique_ids_witness :
    (((exKDb5.movie.map (fun m => m.movie_id)).Nodup) ∧
      kagglePass2 exKDb5 exKRows = .ok exKDb5After) ∧
    (((exKDb5After.movie.map (fun m => m.movie_id)).Nodup) ∧
      (∀ t, hasTitle exKDb5.movie t = true →
        exKDb5After.movie.filter (fun m => m.original_title == some t) =
          exKDb5.movie.filter (fun m => m.original_title == some t)) ∧
      (∀ t, (exKDb5After.movie.filter (fun m => m.original_title == some t)).length ≤
        max 1 (exKDb5.movie.filter (fun m => m.original_title == some t)).length)) :=
  ⟨⟨by decide, by decide⟩,
   kaggle_merge_unique_ids_no_dup_title exKDb5 exKDb5After exKRows (by decide) (by decide)⟩

/-! ## C9 -/

/-- C9 counterexample: two enumeration orders of the same registry set (the
input files determine the set, but Python promises no enumeration order for
it) flush to genre tables that differ as row sets, because the engine assigns
surrogate ids in insertion order — so the final row sets are not a function
of the input files alone. -/
theorem genre_rowset_order_dependent_cex :
    (["Action", "Drama"] : List String).Perm ["Drama", "Action"] ∧
    load_genres [] ["Action", "Drama"] = [(1, "Action"), (2, "Drama")] ∧
    load_genres [] ["Drama", "Action"] = [(1, "Drama"), (2, "Action")] ∧
    (1, "Action") ∈ load_genres [] ["Action", "Drama"] ∧
    (1, "Action") ∉ load_genres [] ["Drama", "Action"] :=
  ⟨List.Perm.swap "Drama" "Action" [], by decide, by decide, by decide, by decide⟩

/-- Unfolding equation of the genre flush. -/
theorem load_genres_cons (t : List (Nat × String)) (g : String) (gs : List String) :
    load_genres t (g :: gs) = load_genres (if g ≠ "" then insertRefByName t g else t) gs := rfl

/-- The names stored after one reference insert. -/
theorem mem_insertRefByName_names (t : List (Nat × String)) (g name : String) :
    name ∈ (insertRefByName t g).map Prod.snd ↔ name ∈ t.map Prod.snd ∨ name = g := by
  unfold insertRefByName
  by_cases h : t.any (fun p => p.2 == g)
  · rw [if_pos h]
    constructor
    · exact Or.inl
    · intro hc
      rcases hc with h1 | h2
      · exact h1
      · subst h2
        obtain ⟨p, hp, hpe⟩ := List.any_eq_true.mp h
        have hpn : p.2 = name := by simpa using hpe
        exact hpn ▸ List.mem_map_of_mem Prod.snd hp
  · rw [if_neg h]
    rw [List.map_append]
    simp [List.mem_append]

/-- A reference insert keeps the stored names pairwise distinct. -/
theorem insertRefByName_names_nodup (t : List (Nat × String)) (g : String)
    (h : (t.map Prod.snd).Nodup) : ((insertRefByName t g).map Prod.snd).Nodup := by
  unfold insertRefByName
  by_cases ha : t.any (fun p => p.2 == g)
  · rw [if_pos ha]; exact h
  · rw [if_neg ha]
    rw [List.map_append, List.nodup_append]
    refine ⟨h, List.nodup_singleton _, ?_⟩
    intro x hx hx2
    simp only [List.map_cons, List.map_nil, List.mem_singleton] at hx2
    have ha2 : t.any (fun p => p.2 == g) = false := Bool.eq_false_iff.mpr ha
    obtain ⟨p, hp, hpe⟩ := List.mem_map.mp hx
    have hcontra := List.any_eq_false.mp ha2 p hp
    rw [hpe, hx2] at hcontra
    simp at hcontra

/-- The names stored by a genre flush: the prior names plus every non-blank
flushed name. -/
theorem load_genres_names_mem (L : List String) :
    ∀ (t : List (Nat × String)) (name : String),
      name ∈ (load_genres t L).map Prod.snd ↔
        name ∈ t.map Prod.snd ∨ (name ∈ L ∧ name ≠ "") := by
  induction L with
  | nil =>
    intro t name
    unfold load_genres
    simp
  | cons g gs ih =>
    intro t name
    rw [load_genres_cons]
    by_cases hg : g ≠ ""
    · rw [if_pos hg, ih (insertRefByName t g) name, mem_insertRefByName_names]
      constructor
      · rintro ((h1 | h2) | h3)
        · exact Or.inl h1
        · subst h2; exact Or.inr ⟨List.mem_cons_self _ _, hg⟩
        · exact Or.inr ⟨List.mem_cons_of_mem _ h3.1, h3.2⟩
      · rintro (h1 | ⟨hmem, hne⟩)
        · exact Or.inl (Or.inl h1)
        · rcases List.mem_cons.mp hmem with he | hm
          · exact Or.inl (Or.inr he)
          · exact Or.inr ⟨hm, hne⟩
    · rw [if_neg hg, ih t name]
      have hg2 : g = "" := by simpa using hg
      constructor
      · rintro (h1 | h2)
        · exact Or.inl h1
        · exact Or.inr ⟨List.mem_cons_of_mem _ h2.1, h2.2⟩
      · rintro (h1 | ⟨hmem, hne⟩)
        · exact Or.inl h1
        · rcases List.mem_cons.mp hmem with he | hm
          · rw [he, hg2] at hne
            exact absurd rfl hne
          · exact Or.inr ⟨hm, hne⟩

/-- A genre flush keeps the stored names pairwise distinct. -/
theorem load_genres_names_nodup (L : List String) :
    ∀ t : List (Nat × String), ((t.map Prod.snd).Nodup) →
      ((load_genres t L).map Prod.snd).Nodup := by
  induction L with
  | nil => intro t h; exact h
  | cons g gs ih =>
    intro t h
    rw [load_genres_cons]
    by_cases hg : g ≠ ""
    · rw [if_pos hg]
      exact ih (insertRefByName t g) (insertRefByName_names_nodup t g h)
    · rw [if_neg hg]
      exact ih t h

/-- C9 (amended): the natural-key CONTENT of the tables is deterministic —
flushing any two enumerations of the same registry set into a fresh genre
table stores the same set of genre names; but the surrogate-id columns (and
therefore the association row sets that embed them) depend on the registry
enumeration order, which Python leaves unspecified, so only id-renaming
equivalence of the row sets is guaranteed across runs, not equality. -/
theorem genre_flush_names_perm (L1 L2 : List String) (h : L1.Perm L2) :
    ((load_genres [] L1).map Prod.snd).Perm ((load_genres [] L2).map Prod.snd) := by
  have h1 := load_genres_names_nodup L1 [] (by simp)
  have h2 := load_genres_names_nodup L2 [] (by simp)
  rw [List.perm_ext_iff_of_nodup h1 h2]
  intro a
  rw [load_genres_names_mem L1 [] a, load_genres_names_mem L2 [] a, h.mem_iff]

/-- C9 amended, witness at the two enumerations of the counterexample. -/
theorem genre_flush_names_perm_witness :
    (["Action", "Drama"] : List String).Perm ["Drama", "Action"] ∧
    ((load_genres [] ["Action", "Drama"]).map Prod.snd).Perm
      ((load_genres [] ["Drama", "Action"]).map Prod.snd) :=
  ⟨List.Perm.swap "Drama" "Action" [],
   genre_flush_names_perm ["Action", "Drama"] ["Drama", "Action"]
     (List.Perm.swap "Drama" "Action" [])⟩
